import Mathlib

/-!
Shallow embedding of the cancellation subsystem of the Pavilion test
orchestrator, centred on `CancelCommand.run`
(src/lib/pavilion/plugins/commands/cancel.py).  Collaborator modules that
are not part of the excerpted sources (series, series_util, status_file,
schedulers, test_run) are modelled as oracle fields of an `Env` record,
each documented against the design spec.
-/

namespace Pavilion

/-- Canonical run states.  Modelled from the spec: the Status Ledger's
closed enumeration of states (`status_file.STATES` is not among the
excerpted sources). -/
inductive RunState where
  | CREATED
  | SCHEDULED
  | RUNNING
  | COMPLETE
  | CANCELLED
  | ERROR
deriving DecidableEq, Repr

/-- Terminal states are sinks: COMPLETE, CANCELLED, ERROR. -/
def RunState.terminal : RunState → Bool
  | .COMPLETE => true
  | .CANCELLED => true
  | .ERROR => true
  | _ => false

/-- A `(state, note)` pair, the currency spoken by scheduler plugins and
recorded in the Status Ledger. -/
structure StatusInfo where
  state : RunState
  note : String
deriving DecidableEq, Repr

/-- Current state of a ledger: the last entry.  Modelled from the spec:
a valid ledger holds at least one entry and `current()` returns the last;
the default is never reached on a valid ledger. -/
def currentState (ledger : List StatusInfo) : RunState :=
  (ledger.getLast?.getD ⟨.CREATED, ""⟩).state

/-- A loaded test run: id, owning scheduler name, its Status Ledger
(oldest entry first), and the RUN_COMPLETE completion marker.
`status.set` in the source appends one entry; `set_run_complete` sets the
marker. -/
structure TestRun where
  id : Int
  scheduler : String
  status : List StatusInfo
  complete : Bool
deriving DecidableEq, Repr

/-- Observable events of one `cancel` invocation: process-group signals
sent, kill failures, per-identifier resolution failures, and the
per-run reports printed by the command. -/
inductive Event where
  | killedGroup (pgid : Nat) (sid : String)
  | killFailed (sid : String) (pgid : Nat)
  | seriesNotFound (sid : String)
  | seriesInvalid (sid : String)
  | badTestId (tid : String)
  | cancelled (tid : Int)
  | notCancellable (tid : Int) (st : RunState)
  | loadFailed (tid : Int)
deriving DecidableEq, Repr

/-- The two exception classes caught around the series lookup in the
source: `series_util.TestSeriesError` and `ValueError`. -/
inductive SeriesErr where
  | notFound (msg : String)
  | invalid (msg : String)
deriving DecidableEq, Repr

/-- Modelled from the spec: a series record holds the leader
process-group id (PGID, possibly absent) and the ordered list of member
run ids (`TestSeries.get_pgid` / `TestSeries.from_id(...).tests` are not
among the excerpted sources). -/
structure SeriesInfo where
  pgid : Option Nat
  tests : List Int
deriving DecidableEq, Repr

/-- Python truthiness of the `series_pgid` value: `None` and `0` are
falsy, any other integer is truthy. -/
def pgidTruthy : Option Nat → Bool
  | none => false
  | some p => p != 0

/-- One entry of the `test_runs` working directory: directory name,
owner uid from `stat()`, and whether a RUN_COMPLETE marker file exists. -/
structure DirEntry where
  name : String
  stUid : Nat
  runComplete : Bool
deriving DecidableEq, Repr

/-- Python whitespace stripped by `int()`. -/
def isPySpace (c : Char) : Bool :=
  c == ' ' || c == '\t' || c == '\n' || c == '\r'

/-- Model of `str.startswith` with a single-character needle, as used
on the identifier strings (`test_id.startswith('s')`). -/
def pyStartsWith (s : String) (c : Char) : Bool :=
  match s.data with
  | [] => false
  | d :: _ => d == c

/-- ASCII decimal digit test. -/
def isDigitChar (c : Char) : Bool :=
  48 ≤ c.toNat && c.toNat ≤ 57

/-- Decimal digits folded into a natural number. -/
def digitsToNat (l : List Char) : Nat :=
  l.foldl (fun a c => a * 10 + (c.toNat - 48)) 0

/-- Model of Python's `int(str)` conversion on the character list:
strip whitespace, optional sign, then decimal digits; anything else
raises `ValueError`, modelled as `none`. -/
def pyIntChars (l : List Char) : Option Int :=
  let t := ((l.dropWhile isPySpace).reverse.dropWhile isPySpace).reverse
  match t with
  | [] => none
  | c :: rest =>
    if c == '-' then
      if !rest.isEmpty && rest.all isDigitChar then
        some (-(digitsToNat rest : Int))
      else none
    else if c == '+' then
      if !rest.isEmpty && rest.all isDigitChar then
        some (digitsToNat rest : Int)
      else none
    else
      if (c :: rest).all isDigitChar then
        some (digitsToNat (c :: rest) : Int)
      else none

/-- Model of Python's `int(str)` conversion. -/
def pyInt (s : String) : Option Int := pyIntChars s.data

/-- The environment a `cancel` invocation runs against.  Each field
stands for a collaborator that is outside the excerpted sources:
`testRunsDir` the entries of `working_dir/test_runs`; `userSeriesId` the
per-user latest-series pointer read by `series_util.load_user_series_id`;
`seriesDb` the combined `TestSeries.get_pgid` + `TestSeries.from_id`
lookup; `liveGroup` whether `os.killpg` finds the process group (false
models `ProcessLookupError`); `runsDb` `TestRun.load` (`none` models
`TestRunError`); `cancelJob` the owning scheduler plugin's `cancel_job`.
All are modelled from the spec. -/
structure Env where
  euid : Nat
  testRunsDir : List DirEntry
  userSeriesId : Option String
  seriesDb : String → Except SeriesErr SeriesInfo
  liveGroup : Nat → Bool
  runsDb : Int → Option TestRun
  cancelJob : TestRun → StatusInfo

/-- Lines 54-69 of the source: when no identifiers are supplied, either
select all of the caller's incomplete runs (`--all`), or fall back to
the user's most recent series id when one is recorded. -/
def effectiveTests (env : Env) (argsTests : List String) (argsAll : Bool) :
    List String :=
  if argsTests.isEmpty then
    if argsAll then
      (env.testRunsDir.filter
        (fun e => e.stUid == env.euid && !e.runComplete)).map DirEntry.name
    else
      match env.userSeriesId with
      | some sid => [sid]
      | none => []
  else
    argsTests

/-- Lines 72-113 of the source, one identifier: series ids (leading `s`)
are looked up, their members extended onto the accumulator, and the
recorded PGID signalled when truthy (a dead group is reported, not
raised); other identifiers are parsed as integers.  A lookup or parse
failure is `Except.error`, mirroring the source's immediate
`return errno.EINVAL`. -/
def resolveOne (env : Env) (tid : String) (acc : List Int)
    (evs : List Event) : Except (List Event) (List Int × List Event) :=
  if pyStartsWith tid 's' then
    match env.seriesDb tid with
    | .error (.notFound _) => .error (evs ++ [.seriesNotFound tid])
    | .error (.invalid _) => .error (evs ++ [.seriesInvalid tid])
    | .ok info =>
      let acc' := acc ++ info.tests
      if pgidTruthy info.pgid then
        let p := info.pgid.getD 0
        if env.liveGroup p then
          .ok (acc', evs ++ [.killedGroup p tid])
        else
          .ok (acc', evs ++ [.killFailed tid p])
      else
        .ok (acc', evs)
  else
    match pyInt tid with
    | some n => .ok (acc ++ [n], evs)
    | none => .error (evs ++ [.badTestId tid])

/-- The resolution loop over `args.tests`: an error on any identifier
aborts the loop (the source returns `errno.EINVAL` from inside it). -/
def resolveAll (env : Env) :
    List String → List Int → List Event →
    Except (List Event) (List Int × List Event)
  | [], acc, evs => .ok (acc, evs)
  | tid :: rest, acc, evs =>
    match resolveOne env tid acc evs with
    | .error e => .error e
    | .ok (acc', evs') => resolveAll env rest acc' evs'

/-- Lines 123-143 of the source, the body acting on one loaded run:
only RUNNING or SCHEDULED runs are cancelled (plugin `cancel_job`
invoked, its `StatusInfo` appended to the ledger, completion marker
set); every other state is reported as not cancellable.  The boolean
records whether the plugin was invoked. -/
def cancelStep (cj : TestRun → StatusInfo) (tid : Int) (test : TestRun) :
    TestRun × Event × Bool :=
  let st := currentState test.status
  if st = .RUNNING ∨ st = .SCHEDULED then
    let cs := cj test
    ({ test with status := test.status ++ [cs], complete := true },
      .cancelled tid, true)
  else
    (test, .notCancellable tid st, false)

/-- Lines 117-151 of the source: load and process each resolved run id;
a `TestRunError` on load aborts the loop with `errno.EINVAL` (mirrored
as `Except.error`).  Accumulates the report events and the final state
of each processed run. -/
def processAll (env : Env) :
    List Int → List Event → List (Int × TestRun) →
    Except (List Event × List (Int × TestRun))
      (List Event × List (Int × TestRun))
  | [], evs, runs => .ok (evs, runs)
  | tid :: rest, evs, runs =>
    match env.runsDb tid with
    | none => .error (evs ++ [.loadFailed tid], runs)
    | some test =>
      let r := cancelStep env.cancelJob tid test
      processAll env rest (evs ++ [r.2.1]) (runs ++ [(tid, r.1)])

/-- The `errno.EINVAL` code returned on every fatal resolution
failure. -/
def EINVAL : Int := 22

/-- The observable outcome of one `cancel` invocation: the returned
value (Python `False` is exit status 0), the report events in order,
and the final state of each processed run. -/
structure Output where
  retVal : Int
  events : List Event
  runs : List (Int × TestRun)
deriving DecidableEq, Repr

/-- The whole of `CancelCommand.run`: default the identifier list, resolve it, then
cancel each resolved run; any resolution or load failure returns
`errno.EINVAL` immediately, otherwise `cancel_failed` (never set) is
returned as 0. -/
def runCancel (env : Env) (argsTests : List String) (argsAll : Bool) :
    Output :=
  let ids := effectiveTests env argsTests argsAll
  match resolveAll env ids [] [] with
  | .error evs => ⟨EINVAL, evs, []⟩
  | .ok (testList, evs) =>
    match processAll env testList evs [] with
    | .error (evs', runs) => ⟨EINVAL, evs', runs⟩
    | .ok (evs', runs) => ⟨0, evs', runs⟩

/-- Repeated cancel attempts on the same run (each invocation of
the command reloads the run and applies `cancelStep`; no other actor
touches it in between). -/
def iterCancel (cj : TestRun → StatusInfo) (tid : Int) :
    Nat → TestRun → TestRun
  | 0, t => t
  | n + 1, t => iterCancel cj tid n (cancelStep cj tid t).1

/-! Concrete fixtures used by witnesses and counterexamples. -/

/-- A run in state RUNNING, plain lifecycle so far. -/
def run42 : TestRun :=
  { id := 42, scheduler := "slurm",
    status := [⟨.CREATED, ""⟩, ⟨.SCHEDULED, ""⟩, ⟨.RUNNING, ""⟩],
    complete := false }

/-- A run already in the terminal state COMPLETE. -/
def doneRun : TestRun :=
  { id := 7, scheduler := "raw",
    status := [⟨.CREATED, ""⟩, ⟨.COMPLETE, "done"⟩],
    complete := true }

/-- A run still in CREATED (never scheduled, e.g. failed build). -/
def createdRun : TestRun :=
  { id := 5, scheduler := "slurm",
    status := [⟨.CREATED, ""⟩],
    complete := false }

/-- An environment holding only `run42`; every series lookup fails and
no latest-series pointer is recorded. -/
def envA : Env :=
  { euid := 1000, testRunsDir := [], userSeriesId := none,
    seriesDb := fun _ => .error (.invalid "bad"),
    liveGroup := fun _ => false,
    runsDb := fun t => if t = 42 then some run42 else none,
    cancelJob := fun _ => ⟨.CANCELLED, "terminated by user"⟩ }

/-- An environment with series `s1` of PGID 9 and single member 42,
whose process group is already gone. -/
def envS5 : Env :=
  { euid := 1000, testRunsDir := [], userSeriesId := none,
    seriesDb := fun s =>
      if s = "s1" then .ok ⟨some 9, [42]⟩ else .error (.notFound "gone"),
    liveGroup := fun _ => false,
    runsDb := fun t => if t = 42 then some run42 else none,
    cancelJob := fun _ => ⟨.CANCELLED, "terminated by user"⟩ }

/-- An environment with series `s2` that has no recorded PGID and single
member 42. -/
def envS6 : Env :=
  { euid := 1000, testRunsDir := [], userSeriesId := none,
    seriesDb := fun s =>
      if s = "s2" then .ok ⟨none, [42]⟩ else .error (.notFound "gone"),
    liveGroup := fun _ => true,
    runsDb := fun t => if t = 42 then some run42 else none,
    cancelJob := fun _ => ⟨.CANCELLED, "terminated by user"⟩ }

/-- An environment with series `s1` of no PGID whose member list is
`[7]`, so that naming `s1` and `7` together duplicates run 7. -/
def envS7 : Env :=
  { euid := 1000, testRunsDir := [], userSeriesId := none,
    seriesDb := fun s =>
      if s = "s1" then .ok ⟨none, [7]⟩ else .error (.notFound "gone"),
    liveGroup := fun _ => true,
    runsDb := fun t => if t = 7 then some doneRun else none,
    cancelJob := fun _ => ⟨.CANCELLED, "terminated by user"⟩ }

/-! Helper lemmas shared between claims. -/

/-- Unfolding one active cancellation: RUNNING/SCHEDULED runs get the
plugin result appended and the completion marker set. -/
theorem cancelStep_active (cj : TestRun → StatusInfo) (tid : Int)
    (t : TestRun)
    (h : currentState t.status = .RUNNING ∨
         currentState t.status = .SCHEDULED) :
    cancelStep cj tid t =
      ({ t with status := t.status ++ [cj t], complete := true },
        .cancelled tid, true) := by
  simp only [cancelStep]
  rw [if_pos h]

/-- Unfolding one skipped cancellation: any other state is reported as
not cancellable and the run is untouched. -/
theorem cancelStep_skip (cj : TestRun → StatusInfo) (tid : Int)
    (t : TestRun)
    (h : ¬(currentState t.status = .RUNNING ∨
           currentState t.status = .SCHEDULED)) :
    cancelStep cj tid t =
      (t, .notCancellable tid (currentState t.status), false) := by
  simp only [cancelStep]
  rw [if_neg h]

/-- A terminal state is neither RUNNING nor SCHEDULED. -/
theorem terminal_not_active {st : RunState} (h : st.terminal = true) :
    ¬(st = .RUNNING ∨ st = .SCHEDULED) := by
  cases st <;> simp_all [RunState.terminal]

/-- Iterating `cancelStep` from a fixed point stays there. -/
theorem iterCancel_fix (cj : TestRun → StatusInfo) (tid : Int)
    (t : TestRun) (h : (cancelStep cj tid t).1 = t) :
    ∀ n, iterCancel cj tid n t = t := by
  intro n
  induction n with
  | zero => rfl
  | succ n ih =>
    show iterCancel cj tid n (cancelStep cj tid t).1 = t
    rw [h]
    exact ih

/-- The resolution loop distributes over list append, threading the
accumulators. -/
theorem resolveAll_append (env : Env) (ids ids₂ : List String) :
    ∀ acc evs, resolveAll env (ids ++ ids₂) acc evs =
      match resolveAll env ids acc evs with
      | .error e => .error e
      | .ok (acc', evs') => resolveAll env ids₂ acc' evs' := by
  induction ids with
  | nil =>
    intro acc evs
    rfl
  | cons tid rest ih =>
    intro acc evs
    show resolveAll env (tid :: (rest ++ ids₂)) acc evs = _
    simp only [resolveAll]
    cases resolveOne env tid acc evs with
    | error e => rfl
    | ok p => exact ih p.1 p.2

/-- A malformed non-series identifier anywhere in the list makes the
resolution loop abort with an error. -/
theorem resolveAll_error_of_bad (env : Env) (tid : String)
    (hns : pyStartsWith tid 's' = false) (hbad : pyInt tid = none) :
    ∀ ids acc evs, tid ∈ ids →
      ∃ e, resolveAll env ids acc evs = .error e := by
  intro ids
  induction ids with
  | nil =>
    intro acc evs h
    cases h
  | cons hd rest ih =>
    intro acc evs hmem
    rcases List.mem_cons.mp hmem with heq | hmem'
    · subst heq
      refine ⟨evs ++ [.badTestId tid], ?_⟩
      simp [resolveAll, resolveOne, hns, hbad]
    · simp only [resolveAll]
      cases resolveOne env hd acc evs with
      | error e => exact ⟨e, rfl⟩
      | ok p => exact ih p.1 p.2 hmem'

/-- The processing loop's result depends only on the run database and
the plugin, never on the process-group oracle. -/
theorem processAll_liveGroup (env : Env) (g : Nat → Bool) (l : List Int) :
    ∀ evs runs, processAll { env with liveGroup := g } l evs runs =
      processAll env l evs runs := by
  induction l with
  | nil =>
    intro evs runs
    rfl
  | cons tid rest ih =>
    intro evs runs
    simp only [processAll]
    cases env.runsDb tid with
    | none => rfl
    | some t => exact ih _ _

/-- The processing loop only appends to its event and run accumulators. -/
theorem processAll_shift (env : Env) (l : List Int) :
    ∀ evs runs, processAll env l evs runs =
      match processAll env l [] [] with
      | .error (e, r) => .error (evs ++ e, runs ++ r)
      | .ok (e, r) => .ok (evs ++ e, runs ++ r) := by
  induction l with
  | nil =>
    intro evs runs
    simp [processAll]
  | cons tid rest ih =>
    intro evs runs
    simp only [processAll]
    cases env.runsDb tid with
    | none => simp
    | some t =>
      dsimp only
      rw [ih (evs ++ _) (runs ++ _), ih ([] ++ _) ([] ++ _)]
      cases processAll env rest [] [] with
      | error p => cases p with | mk e r => simp
      | ok p => cases p with | mk e r => simp

/-- When every resolved id loads, the processing loop finishes without
an error, whatever the runs' states are. -/
theorem processAll_ok_of_loads (env : Env) (l : List Int)
    (h : ∀ t ∈ l, (env.runsDb t).isSome) :
    ∀ evs runs, ∃ e r, processAll env l evs runs = .ok (e, r) := by
  induction l with
  | nil =>
    intro evs runs
    exact ⟨evs, runs, rfl⟩
  | cons tid rest ih =>
    intro evs runs
    have h1 : (env.runsDb tid).isSome := h tid (List.mem_cons_self _ _)
    cases hm : env.runsDb tid with
    | none =>
      rw [hm] at h1
      simp at h1
    | some t =>
      simp only [processAll, hm]
      exact ih (fun x hx => h x (List.mem_cons_of_mem _ hx)) _ _

/-- No process-group signal among the given events. -/
def noKill (evs : List Event) : Prop :=
  ∀ p s, Event.killedGroup p s ∉ evs

/-- The per-run body reports either a cancellation or a skip, never a
process-group signal. -/
theorem cancelStep_event (cj : TestRun → StatusInfo) (tid : Int)
    (t : TestRun) :
    (cancelStep cj tid t).2.1 = .cancelled tid ∨
    (cancelStep cj tid t).2.1 =
      .notCancellable tid (currentState t.status) := by
  simp only [cancelStep]
  split
  · exact Or.inl rfl
  · exact Or.inr rfl

/-- The event list of the processing loop's result never contains a
process-group signal beyond the ones already accumulated. -/
theorem processAll_noKill (env : Env) (l : List Int) :
    ∀ evs runs, noKill evs →
      (match processAll env l evs runs with
       | .error (e, _) => noKill e
       | .ok (e, _) => noKill e) := by
  induction l with
  | nil =>
    intro evs runs h
    exact h
  | cons tid rest ih =>
    intro evs runs h
    simp only [processAll]
    cases env.runsDb tid with
    | none =>
      intro p s hp
      rcases List.mem_append.mp hp with hl | hr
      · exact h p s hl
      · simp at hr
    | some t =>
      dsimp only
      refine ih _ _ ?_
      intro p s hp
      rcases List.mem_append.mp hp with hl | hr
      · exact h p s hl
      · rcases List.mem_singleton.mp hr with heq
        rcases cancelStep_event env.cancelJob tid t with he | he <;>
          rw [he] at heq <;> cases heq

/-! Claim theorems. -/

/-- C1 counterexample: on the batch `["zz", "42"]`, where `"zz"` is
malformed and run 42 is loadable and RUNNING, the command aborts with
EINVAL before touching run 42 — no run is processed and no outcome for
42 is reported — although the batch `["42"]` alone does process run 42.
This refutes the claim that a resolution failure on one identifier does
not abort processing of the remaining identifiers. -/
theorem cancel_batch_abort_counterexample :
    runCancel envA ["zz", "42"] false = ⟨EINVAL, [.badTestId "zz"], []⟩ ∧
    (runCancel envA ["42"] false).runs ≠ [] := by
  constructor
  · decide
  · decide

/-- C1 (amended): a resolution failure is fatal to the whole batch: if
any identifier in the effective list is malformed (not a series id and
not an integer), the command returns EINVAL and processes no test run
at all. -/
theorem cancel_resolution_failure_aborts (env : Env) (ids : List String)
    (aAll : Bool) (tid : String)
    (hmem : tid ∈ effectiveTests env ids aAll)
    (hns : pyStartsWith tid 's' = false)
    (hbad : pyInt tid = none) :
    (runCancel env ids aAll).retVal = EINVAL ∧
    (runCancel env ids aAll).runs = [] := by
  obtain ⟨e, he⟩ :=
    resolveAll_error_of_bad env tid hns hbad
      (effectiveTests env ids aAll) [] [] hmem
  simp [runCancel, he]

/-- C1 witness. -/
theorem cancel_resolution_failure_aborts_witness :
    (runCancel envA ["zz"] false).retVal = EINVAL ∧
    (runCancel envA ["zz"] false).runs = [] :=
  cancel_resolution_failure_aborts envA ["zz"] false "zz"
    (by decide) (by decide) (by decide)

/-- C2: for a run whose current ledger state is RUNNING or SCHEDULED,
the per-run cancel body invokes the owning plugin's `cancel_job` (the
`true` flag), appends the returned `(state, note)` as exactly one new
ledger entry, sets the completion marker, and reports the run
cancelled.  In particular a plugin result `(CANCELLED, "terminated by
user")` becomes exactly that single new ledger entry. -/
theorem cancel_active_run (cj : TestRun → StatusInfo) (tid : Int)
    (t : TestRun)
    (h : currentState t.status = .RUNNING ∨
         currentState t.status = .SCHEDULED) :
    cancelStep cj tid t =
      ({ t with status := t.status ++ [cj t], complete := true },
        .cancelled tid, true) :=
  cancelStep_active cj tid t h

/-- C2 witness: run 42 in state RUNNING, plugin returning
`(CANCELLED, "terminated by user")`. -/
theorem cancel_active_run_witness :
    cancelStep (fun _ => ⟨.CANCELLED, "terminated by user"⟩) 42 run42 =
      ({ run42 with
          status := run42.status ++ [⟨.CANCELLED, "terminated by user"⟩],
          complete := true },
        .cancelled 42, true) :=
  cancel_active_run (fun _ => ⟨.CANCELLED, "terminated by user"⟩) 42 run42
    (Or.inl (by decide))

/-- C3: cancelling a run already in a terminal state (COMPLETE,
CANCELLED, ERROR) any number of times is a no-op: the run (hence its
ledger) is unchanged after every number of attempts, the plugin is
never invoked (the `false` flag), and the report carries the existing
terminal state instead of an error. -/
theorem cancel_terminal_noop (cj : TestRun → StatusInfo) (tid : Int)
    (t : TestRun) (h : (currentState t.status).terminal = true) :
    (∀ n, iterCancel cj tid n t = t) ∧
    cancelStep cj tid t =
      (t, .notCancellable tid (currentState t.status), false) := by
  have hskip := cancelStep_skip cj tid t (terminal_not_active h)
  exact ⟨iterCancel_fix cj tid t (by rw [hskip]), hskip⟩

/-- C3 witness: three cancel attempts on a COMPLETE run. -/
theorem cancel_terminal_noop_witness :
    iterCancel (fun _ => ⟨.CANCELLED, "x"⟩) 7 3 doneRun = doneRun ∧
    cancelStep (fun _ => ⟨.CANCELLED, "x"⟩) 7 doneRun =
      (doneRun, .notCancellable 7 .COMPLETE, false) := by
  have h := cancel_terminal_noop (fun _ => ⟨.CANCELLED, "x"⟩) 7 doneRun
    (by decide)
  exact ⟨h.1 3, h.2⟩

/-- C4 counterexample: a run whose current state is CREATED is skipped
as not cancellable — the run is unchanged, the plugin is not invoked,
and no CANCELLED entry ever enters its ledger — refuting the claim that
the cancel operation performs the CREATED → CANCELLED transition. -/
theorem cancel_created_counterexample :
    cancelStep (fun _ => ⟨.CANCELLED, "terminated by user"⟩) 5 createdRun =
      (createdRun, .notCancellable 5 .CREATED, false) ∧
    RunState.CANCELLED ∉
      ((cancelStep (fun _ => ⟨.CANCELLED, "terminated by user"⟩) 5
          createdRun).1.status.map StatusInfo.state) := by
  constructor
  · decide
  · decide

/-- C4 (amended): a run in state CREATED is not cancelled but skipped
as not-cancellable: only RUNNING and SCHEDULED runs go through the
plugin-cancel path. -/
theorem cancel_created_skipped (cj : TestRun → StatusInfo) (tid : Int)
    (t : TestRun) (h : currentState t.status = .CREATED) :
    cancelStep cj tid t = (t, .notCancellable tid .CREATED, false) := by
  have hskip := cancelStep_skip cj tid t (by rw [h]; decide)
  rw [h] at hskip
  exact hskip

/-- C4 witness. -/
theorem cancel_created_skipped_witness :
    cancelStep (fun _ => ⟨.CANCELLED, "n"⟩) 5 createdRun =
      (createdRun, .notCancellable 5 .CREATED, false) :=
  cancel_created_skipped (fun _ => ⟨.CANCELLED, "n"⟩) 5 createdRun
    (by decide)

/-- C5: cancelling a series whose recorded PGID group is already gone
(`os.killpg` raises `ProcessLookupError`): resolution still succeeds,
with the members accumulated and only a kill-failure report emitted,
and the command's returned value and processed runs are exactly those
of the same command against a live group — the dead group is not
escalated as a failure and every member is still cancelled
individually. -/
theorem cancel_dead_group_not_fatal (env : Env) (sid : String) (p : Nat)
    (members : List Int)
    (hs : pyStartsWith sid 's' = true)
    (hdb : env.seriesDb sid = .ok ⟨some p, members⟩)
    (hp : p ≠ 0)
    (hdead : env.liveGroup p = false) :
    resolveAll env [sid] [] [] = .ok (members, [.killFailed sid p]) ∧
    (runCancel env [sid] false).retVal =
      (runCancel { env with liveGroup := fun _ => true } [sid] false).retVal ∧
    (runCancel env [sid] false).runs =
      (runCancel { env with liveGroup := fun _ => true } [sid] false).runs := by
  have hra : resolveAll env [sid] [] [] =
      .ok (members, [.killFailed sid p]) := by
    simp [resolveAll, resolveOne, hs, hdb, pgidTruthy, hp, hdead]
  have hra' : resolveAll { env with liveGroup := fun _ => true } [sid] [] [] =
      .ok (members, [.killedGroup p sid]) := by
    simp [resolveAll, resolveOne, hs, hdb, pgidTruthy, hp]
  refine ⟨hra, ?_⟩
  simp only [runCancel, effectiveTests]
  rw [show ([sid] : List String).isEmpty = false from rfl]
  simp only [Bool.false_eq_true, if_false, hra, hra']
  rw [processAll_liveGroup env (fun _ => true) members
        [Event.killedGroup p sid] [],
    processAll_shift env members [Event.killFailed sid p] [],
    processAll_shift env members [Event.killedGroup p sid] []]
  cases processAll env members [] [] with
  | error q => cases q with | mk e r => simp
  | ok q => cases q with | mk e r => simp

/-- C5 witness: series `s1`, PGID 9 already exited, single member 42. -/
theorem cancel_dead_group_not_fatal_witness :
    resolveAll envS5 ["s1"] [] [] = .ok ([42], [.killFailed "s1" 9]) ∧
    (runCancel envS5 ["s1"] false).retVal =
      (runCancel { envS5 with liveGroup := fun _ => true } ["s1"] false).retVal ∧
    (runCancel envS5 ["s1"] false).runs =
      (runCancel { envS5 with liveGroup := fun _ => true } ["s1"] false).runs :=
  cancel_dead_group_not_fatal envS5 "s1" 9 [42]
    (by decide) (by rfl) (by decide) (by rfl)

/-- C6: a series with no (or falsy) recorded PGID: resolution succeeds
with its members accumulated and no signal event at all, no
process-group signal ever appears among the command's events, and the
command's outcome is exactly the per-run processing of the member
list — each member is individually cancelled through the per-run
path. -/
theorem cancel_series_no_pgid (env : Env) (sid : String)
    (pg : Option Nat) (members : List Int)
    (hs : pyStartsWith sid 's' = true)
    (hdb : env.seriesDb sid = .ok ⟨pg, members⟩)
    (hfalsy : pgidTruthy pg = false) :
    resolveAll env [sid] [] [] = .ok (members, []) ∧
    noKill (runCancel env [sid] false).events ∧
    runCancel env [sid] false =
      (match processAll env members [] [] with
       | .error (e, r) => ⟨EINVAL, e, r⟩
       | .ok (e, r) => ⟨0, e, r⟩) := by
  have hra : resolveAll env [sid] [] [] = .ok (members, []) := by
    simp [resolveAll, resolveOne, hs, hdb, hfalsy]
  have hrun : runCancel env [sid] false =
      (match processAll env members [] [] with
       | .error (e, r) => ⟨EINVAL, e, r⟩
       | .ok (e, r) => ⟨0, e, r⟩) := by
    simp only [runCancel, effectiveTests]
    rw [show ([sid] : List String).isEmpty = false from rfl]
    simp only [Bool.false_eq_true, if_false, hra]
  refine ⟨hra, ?_, hrun⟩
  have hnk := processAll_noKill env members [] []
    (by intro p s hp; cases hp)
  rw [hrun]
  cases hq : processAll env members [] [] with
  | error q =>
    rw [hq] at hnk
    cases q with | mk e r => exact hnk
  | ok q =>
    rw [hq] at hnk
    cases q with | mk e r => exact hnk

/-- C6 witness: series `s2` with no recorded PGID, single member 42. -/
theorem cancel_series_no_pgid_witness :
    resolveAll envS6 ["s2"] [] [] = .ok ([42], []) ∧
    noKill (runCancel envS6 ["s2"] false).events ∧
    runCancel envS6 ["s2"] false =
      (match processAll envS6 [42] [] [] with
       | .error (e, r) => ⟨EINVAL, e, r⟩
       | .ok (e, r) => ⟨0, e, r⟩) :=
  cancel_series_no_pgid envS6 "s2" none [42]
    (by decide) (by rfl) (by decide)

/-- C7 counterexample: with series `s1` whose member list is `[7]`, the
identifier list `["s1", "7"]` resolves to `[7, 7]` — run 7 appears
twice, so the resolved list is not de-duplicated. -/
theorem cancel_resolution_dedup_counterexample :
    resolveAll envS7 ["s1", "7"] [] [] = .ok ([7, 7], []) ∧
    ¬ ([(7 : Int), 7].Nodup) := by
  constructor
  · rfl
  · decide

/-- C7 (amended): resolution accumulates a flat list — each identifier
appends its expansion in order — but performs no de-duplication: a
further numeric identifier is appended to the already-resolved list
unconditionally, even when its run id is already present. -/
theorem cancel_resolution_flat_no_dedup (env : Env) (ids : List String)
    (acc : List Int) (evs : List Event) (l : List Int) (e : List Event)
    (tid : String) (n : Int)
    (hok : resolveAll env ids acc evs = .ok (l, e))
    (hns : pyStartsWith tid 's' = false)
    (hnum : pyInt tid = some n) :
    resolveAll env (ids ++ [tid]) acc evs = .ok (l ++ [n], e) := by
  rw [resolveAll_append, hok]
  simp [resolveAll, resolveOne, hns, hnum]

/-- C7 witness: appending `"7"` to an already-resolved `[7]` yields
`[7, 7]`. -/
theorem cancel_resolution_flat_no_dedup_witness :
    resolveAll envS7 (["7"] ++ ["7"]) [] [] = .ok ([7] ++ [7], []) :=
  cancel_resolution_flat_no_dedup envS7 ["7"] [] [] [7] [] "7" 7
    (by rfl) (by decide) (by decide)

/-- C8: the command returns its aggregate outcome as a value: EINVAL
when resolution of any identifier fails, EINVAL when a resolved run id
fails to load, and 0 when every identifier resolves and every resolved
run loads — with no condition whatever on the runs' states, so a run
that is merely not cancellable never makes the returned value
non-zero. -/
theorem cancel_exit_status (env : Env) (ids : List String) (aAll : Bool) :
    (∀ evs,
      resolveAll env (effectiveTests env ids aAll) [] [] = .error evs →
      (runCancel env ids aAll).retVal = EINVAL) ∧
    (∀ l evs e r,
      resolveAll env (effectiveTests env ids aAll) [] [] = .ok (l, evs) →
      processAll env l evs [] = .error (e, r) →
      (runCancel env ids aAll).retVal = EINVAL) ∧
    (∀ l evs,
      resolveAll env (effectiveTests env ids aAll) [] [] = .ok (l, evs) →
      (∀ t ∈ l, (env.runsDb t).isSome) →
      (runCancel env ids aAll).retVal = 0) ∧
    EINVAL ≠ 0 := by
  refine ⟨?_, ?_, ?_, by decide⟩
  · intro evs h
    simp [runCancel, h]
  · intro l evs e r h1 h2
    simp [runCancel, h1, h2]
  · intro l evs h1 hl
    obtain ⟨e, r, h2⟩ := processAll_ok_of_loads env l hl evs []
    simp [runCancel, h1, h2]

/-- C8 witness: run 42 is RUNNING, so the batch `["42"]` resolves and
loads fully and the returned value is 0. -/
theorem cancel_exit_status_witness :
    (runCancel envA ["42"] false).retVal = 0 :=
  (cancel_exit_status envA ["42"] false).2.2.1 [42] []
    (by rfl) (by decide)

/-- C9: with an empty identifier list and the all-flag unset, the
command falls back to the user's latest-series pointer: when no series
is recorded the outcome is empty (return 0, no event, no run acted on);
when a series id is recorded the command behaves exactly as if that id
had been supplied. -/
theorem cancel_default_latest_series (env : Env) :
    (env.userSeriesId = none → runCancel env [] false = ⟨0, [], []⟩) ∧
    (∀ sid, env.userSeriesId = some sid →
      runCancel env [] false = runCancel env [sid] false) := by
  constructor
  · intro h
    simp [runCancel, effectiveTests, h, resolveAll, processAll]
  · intro sid h
    simp [runCancel, effectiveTests, h]

/-- C9 witness: no latest series recorded — no run is acted on. -/
theorem cancel_default_latest_series_witness :
    runCancel envA [] false = ⟨0, [], []⟩ :=
  (cancel_default_latest_series envA).1 rfl

/-- C10: with an empty identifier list and the all-flag set, the
selected identifiers are exactly the names of the `test_runs` entries
owned by the invoking user's effective uid that have no RUN_COMPLETE
marker; complete runs and other users' runs are never selected. -/
theorem cancel_all_selection (env : Env) (nm : String) :
    nm ∈ effectiveTests env [] true ↔
      ∃ e, e ∈ env.testRunsDir ∧
        e.name = nm ∧ e.stUid = env.euid ∧ e.runComplete = false := by
  simp only [effectiveTests, List.isEmpty_nil, if_true, List.mem_map,
    List.mem_filter, Bool.and_eq_true, beq_iff_eq, Bool.not_eq_true']
  constructor
  · rintro ⟨e, ⟨hmem, hu, hc⟩, hn⟩
    exact ⟨e, hmem, hn, hu, hc⟩
  · rintro ⟨e, hmem, hn, hu, hc⟩
    exact ⟨e, ⟨hmem, hu, hc⟩, hn⟩

end Pavilion
